/-
  Verification of the STRUCTiX/logger core against its specification.

  Shallow embedding of the Go sources:
    - src/unnamed/part_000 : writer, filter/lookup, parsers, formatters
    - src/logger.go        : facade (record construction, Info/Error)

  Go strings are Lean `String`s; Go maps `map[string]*OutputSettings` are
  association lists with overwrite-on-insert and first-match lookup (each
  key occurs at most once, so lookup agrees with the Go map); the output
  stream effect of `Write` is the optional line it emits; the wall clock
  read by `PrettyFormat` is passed explicitly.  String helpers from the Go
  standard library (`strings.Split`, `strings.TrimSpace`,
  `strings.ToUpper`, `fmt.Sprintf`, `encoding/json`) are embedded as
  executable Lean functions over character lists, restricted where noted
  to the fragment this repository exercises.
-/
import Mathlib

namespace StructixLogger

/-! ### Go standard-library string helpers -/

/-- Go `unicode.IsSpace` on the whitespace code points Go trims in
    `strings.TrimSpace`: space, `\t`, `\n`, `\v`, `\f`, `\r`, NEL (U+0085)
    and NBSP (U+00A0). -/
def goIsSpace (c : Char) : Bool :=
  c.toNat = 32 || c.toNat = 9 || c.toNat = 10 || c.toNat = 11 ||
  c.toNat = 12 || c.toNat = 13 || c.toNat = 133 || c.toNat = 160

/-- Go `strings.TrimSpace`: drop leading and trailing whitespace. -/
def trimSpace (s : String) : String :=
  String.mk (((s.data.dropWhile goIsSpace).reverse.dropWhile goIsSpace).reverse)

/-- Go `strings.ToUpper`, on the ASCII fragment this repository compares
    against (`"MUTE"`, `"ERROR"`, `"TIMER"` are all ASCII). -/
def goToUpper (s : String) : String :=
  String.mk (s.data.map Char.toUpper)

/-- Go `strings.Split` with a one-character separator (the repository only
    splits on `","` and `"@"`): split on every occurrence, never collapsing
    empties; the empty string yields `[""]`, as in Go. -/
def goSplitAux (sep : Char) : List Char → List Char → List String
  | [], cur => [String.mk cur.reverse]
  | c :: rest, cur =>
    if c = sep then String.mk cur.reverse :: goSplitAux sep rest []
    else goSplitAux sep rest (c :: cur)

def goSplit (s : String) (sep : Char) : List String :=
  goSplitAux sep s.data []

/-! ### Data model -/

/-- The three-flag capability mask (src/unnamed/part_000, type referenced
    throughout; fields per the spec data model and the struct literals in
    `parseVerbosityLevel`). -/
structure OutputSettings where
  Info : Bool := false
  Error : Bool := false
  Timer : Bool := false
deriving Repr, DecidableEq

/-- Modelled from the spec: the constant `muted` referenced at the end of
    `LoggerSettings` is not under src/; the spec fixes it as "a constant
    fully-false mask serves as the ultimate fallback". -/
def muted : OutputSettings := {}

/-- Go values carried in varargs / attrs (`interface\x7b\x7d`).  The
    `unsupported` constructor stands for values `encoding/json` cannot
    marshal (functions, channels, ...); its string is Go's error text. -/
inductive GoValue where
  | str : String → GoValue
  | int : Int → GoValue
  | bool : Bool → GoValue
  | attrs : List (String × GoValue) → GoValue
  | unsupported : String → GoValue
deriving Repr

/-- The `Attrs` map (iteration order of the Go map is unspecified; the
    list order stands in for it). -/
abbrev Attrs := List (String × GoValue)

/-- The log record (fields per the spec's JSON wire shape and the struct
    literals in src/logger.go; `Time` is an opaque timestamp). -/
structure Log where
  Package : String
  Level : String
  Message : String
  Time : Nat
  Attrs : Option Attrs := none
  ElapsedNano : Int := 0

/-- The settings mapping `map[string]*OutputSettings`. -/
abbrev Settings := List (String × OutputSettings)

/-- Go map insertion `all[name] = v`: overwrite any prior entry. -/
def mapInsert (m : Settings) (k : String) (v : OutputSettings) : Settings :=
  (m.filter (fun p => p.1 ≠ k)) ++ [(k, v)]

/-- Go map lookup `m[k]` (with the `ok` flag as `Option`). -/
def mapLookup (m : Settings) (k : String) : Option OutputSettings :=
  (m.find? (fun p => p.1 = k)).map (fun p => p.2)

/-! ### Verbosity and settings parsers (src/unnamed/part_000) -/

/-- Embeds `parseVerbosityLevel` (src/unnamed/part_000 lines 164-187). -/
def parseVerbosityLevel (val : String) : OutputSettings :=
  let v := goToUpper (trimSpace val)
  if v = "MUTE" then {}
  else
    let s : OutputSettings := { Info := true, Timer := true, Error := true }
    let s := if v = "TIMER" then { s with Info := false } else s
    let s := if v = "ERROR" then { s with Info := false, Timer := false } else s
    s

/-- Embeds `parsePackageName` (src/unnamed/part_000 lines 153-162): split the
    item on every `"@"`; the name is the trimmed first segment; the token,
    when the split produced more than one segment, is `parsed[1]` — the
    text between the first and second `"@"`. -/
def parsePackageName (input : String) : String × Option OutputSettings :=
  let parsed := goSplit input '@'
  let name := trimSpace (parsed.headD "")
  if parsed.length > 1 then
    (name, some (parseVerbosityLevel (parsed.getD 1 "")))
  else
    (name, none)

/-- Embeds `parsePackageSettings` (src/unnamed/part_000 lines 134-148). -/
def parsePackageSettings (input : String) (defaultOutputSettings : OutputSettings) :
    Settings :=
  (goSplit input ',').foldl
    (fun all item =>
      let nv := parsePackageName item
      mapInsert all nv.1 (nv.2.getD defaultOutputSettings))
    []

/-! ### Writer, filter and lookup (src/unnamed/part_000) -/

/-- Embeds `StandardWriter` (the `Target *os.File` stream is modelled by the
    return value of `Write`). -/
structure StandardWriter where
  ColorsEnabled : Bool
  Settings : Settings

/-- Embeds `LoggerSettings` (src/unnamed/part_000 lines 59-70): exact entry,
    else the `"*"` entry, else `muted`. -/
def StandardWriter.LoggerSettings (w : StandardWriter) (p : String) : OutputSettings :=
  match mapLookup w.Settings p with
  | some settings => settings
  | none =>
    match mapLookup w.Settings "*" with
    | some settings => settings
    | none => muted

/-- Embeds `IsEnabled` (src/unnamed/part_000 lines 41-57). -/
def StandardWriter.IsEnabled (w : StandardWriter) (logger level : String) : Bool :=
  let settings := w.LoggerSettings logger
  if level = "INFO" then settings.Info
  else if level = "ERROR" then settings.Error
  else if level = "TIMER" then settings.Timer
  else false

/-! ### `fmt.Sprintf` fragment -/

/-- Go `fmt` default rendering `%v` of a Go value, on the fragment the
    repository exercises (scalars; an aggregate renders as a placeholder,
    no claim inspects one). -/
def goFormatValue : GoValue → String
  | .str s => s
  | .int n => toString n
  | .bool b => toString b
  | .attrs _ => "map"
  | .unsupported t => t

/-- Go `fmt.Sprintf` on the fragment this repository uses: literal
    characters, `%%`, and the `%d`, `%s`, `%v` verbs consuming one
    argument each (format strings here always end in a complete verb or a
    literal). -/
def goSprintfAux : List Char → List GoValue → String → String
  | [], _, acc => acc
  | '%' :: c :: rest, args, acc =>
    if c = '%' then goSprintfAux rest args (acc ++ "%")
    else if c = 'd' ∨ c = 's' ∨ c = 'v' then
      match args with
      | a :: args' => goSprintfAux rest args' (acc ++ goFormatValue a)
      | [] => goSprintfAux rest [] (acc ++ "%!" ++ String.mk [c] ++ "(MISSING)")
    else goSprintfAux rest args (acc ++ String.mk ['%', c])
  | c :: rest, args, acc => goSprintfAux rest args (acc ++ String.mk [c])

def goSprintf (format : String) (args : List GoValue) : String :=
  goSprintfAux format.data args ""

/-! ### `encoding/json` fragment -/

/-- JSON string escaping (the fragment needed here: quote and
    backslash). -/
def jsonEscape (s : String) : String :=
  s.data.foldl
    (fun acc c =>
      if c = '"' then acc ++ "\\\""
      else if c = '\\' then acc ++ "\\\\"
      else acc ++ String.mk [c])
    ""

def jsonString (s : String) : String :=
  "\"" ++ jsonEscape s ++ "\""

mutual

/-- Go `json.Marshal` of a single Go value: fails (as Go's
    `UnsupportedTypeError`) exactly on `unsupported` values, anywhere in
    the structure. -/
def marshalValue : GoValue → Except String String
  | .str s => .ok (jsonString s)
  | .int n => .ok (toString n)
  | .bool b => .ok (toString b)
  | .attrs m =>
    match marshalFields m with
    | .ok l => .ok ("\x7b" ++ String.intercalate "," l ++ "\x7d")
    | .error e => .error e
  | .unsupported t => .error ("json: unsupported type: " ++ t)

def marshalFields : List (String × GoValue) → Except String (List String)
  | [] => .ok []
  | (k, v) :: rest =>
    match marshalValue v, marshalFields rest with
    | .ok mv, .ok mr => .ok ((jsonString k ++ ":" ++ mv) :: mr)
    | .error e, _ => .error e
    | .ok _, .error e => .error e

end

/-- Go `json.Marshal` of a `Log` record: the flat object with the struct's
    fields in declaration order (`Time`, opaque here, renders as its
    numeric value). -/
def jsonMarshal (log : Log) : Except String String :=
  match (match log.Attrs with
         | none => Except.ok "null"
         | some m => marshalValue (.attrs m)) with
  | .error e => .error e
  | .ok attrsJson =>
    .ok ("\x7b" ++ jsonString "Package" ++ ":" ++ jsonString log.Package ++ "," ++
         jsonString "Level" ++ ":" ++ jsonString log.Level ++ "," ++
         jsonString "Message" ++ ":" ++ jsonString log.Message ++ "," ++
         jsonString "Time" ++ ":" ++ toString log.Time ++ "," ++
         jsonString "Attrs" ++ ":" ++ attrsJson ++ "," ++
         jsonString "ElapsedNano" ++ ":" ++ toString log.ElapsedNano ++ "\x7d")

/-! ### Formatters (src/unnamed/part_000) -/

/-- Modelled from the spec: the color constants and `colorFor` are not
    under src/; the spec fixes `colorFor` as "a deterministic, pure
    function of the package name (e.g., stable hash into a fixed
    palette)". -/
def palette : List String :=
  ["\x1b[34m", "\x1b[32m", "\x1b[36m", "\x1b[35m", "\x1b[33m"]

def colorFor (pkg : String) : String :=
  palette.getD ((pkg.data.foldl (fun a c => a + c.toNat) 0) % palette.length) ""

def red : String := "\x1b[31m"

def reset : String := "\x1b[0m"

/-- Models the fragment of Go `time.Duration` rendering used in
    `PrettyLabelExt` (no claim inspects the rendered duration text). -/
def goDurationString (n : Int) : String :=
  toString n ++ "ns"

/-- Embeds `JSONFormat` (src/unnamed/part_000 lines 80-87). -/
def StandardWriter.JSONFormat (_w : StandardWriter) (log : Log) : String :=
  match jsonMarshal log with
  | .ok str => str
  | .error err => "\x7b \"logger-error\": \"" ++ err ++ "\" \x7d"

/-- Embeds `PrettyAttrs` (src/unnamed/part_000 lines 97-108). -/
def StandardWriter.PrettyAttrs (_w : StandardWriter) (attrs : Option Attrs) : String :=
  match attrs with
  | none => ""
  | some m =>
    m.foldl (fun result p => result ++ " " ++ p.1 ++ "=" ++ goFormatValue p.2) ""

/-- Embeds `PrettyLabelExt` (src/unnamed/part_000 lines 118-128). -/
def StandardWriter.PrettyLabelExt (_w : StandardWriter) (log : Log) : String :=
  if log.Level = "ERROR" then
    "(" ++ red ++ "!" ++ colorFor log.Package ++ ")"
  else if log.Level = "TIMER" then
    "(" ++ reset ++ goDurationString log.ElapsedNano ++ colorFor log.Package ++ ")"
  else ""

/-- Embeds `PrettyLabel` (src/unnamed/part_000 lines 110-116). -/
def StandardWriter.PrettyLabel (w : StandardWriter) (log : Log) : String :=
  colorFor log.Package ++ log.Package ++ w.PrettyLabelExt log ++ ":" ++ reset

/-- Embeds `PrettyFormat` (src/unnamed/part_000 lines 89-95): the timestamp is
    `time.Now()` formatted at format time, passed here explicitly as
    `now`; the record's own `Time` field is not read. -/
def StandardWriter.PrettyFormat (w : StandardWriter) (now : String) (log : Log) :
    String :=
  now ++ " " ++ w.PrettyLabel log ++ " " ++ log.Message ++ w.PrettyAttrs log.Attrs

/-- Embeds `Format` (src/unnamed/part_000 lines 72-78). -/
def StandardWriter.Format (w : StandardWriter) (now : String) (log : Log) : String :=
  if w.ColorsEnabled then w.PrettyFormat now log else w.JSONFormat log

/-- Embeds `Write` (src/unnamed/part_000 lines 35-39): the line appended to the
    target stream by `fmt.Fprintln` (with its trailing newline), or `none`
    when the record is suppressed. -/
def StandardWriter.Write (w : StandardWriter) (now : String) (log : Log) :
    Option String :=
  if w.IsEnabled log.Package log.Level then some (w.Format now log ++ "\n")
  else none

/-! ### Construction from the environment (src/unnamed/part_000) -/

/-- The two environment variables read once at construction.  `os.Getenv`
    returns `""` for an unset variable, so unset is modelled as the empty
    string. -/
structure Env where
  LOG : String
  LOG_LEVEL : String

/-- Embeds `NewStandardOutput` (src/unnamed/part_000 lines 11-25); the
    `*os.File` target is modelled by `Write`'s return value. -/
def NewStandardOutput (env : Env) : StandardWriter :=
  let defaultOutputSettings := parseVerbosityLevel env.LOG_LEVEL
  let logEnv := if env.LOG ≠ "" then env.LOG else "*"
  { ColorsEnabled := true
    Settings := parsePackageSettings logEnv defaultOutputSettings }

/-! ### Facade (src/logger.go) -/

structure Logger where
  Name : String

/-- Modelled from the spec: `SplitAttrs` is not under src/; per the
    facade contract it separates a trailing attrs mapping from the
    interpolation arguments. -/
def SplitAttrs (args : List GoValue) : List GoValue × Option Attrs :=
  match args.getLast? with
  | some (.attrs m) => (args.dropLast, some m)
  | _ => (args, none)

/-- Embeds `Logger.Log` (src/logger.go lines 21-31): builds the record that the
    runtime dispatches to the writer (`Now()` passed explicitly). -/
def Logger.Log (logger : Logger) (level message : String) (args : List GoValue)
    (now : Nat) : Log :=
  let va := SplitAttrs args
  { Package := logger.Name
    Level := level
    Message := goSprintf message va.1
    Time := now
    Attrs := va.2 }

/-- Embeds `Logger.Info` (src/logger.go lines 34-36). -/
def Logger.Info (logger : Logger) (msg : String) (v : List GoValue) (now : Nat) :
    StructixLogger.Log :=
  logger.Log "INFO" msg v now

/-- Embeds `Logger.Error` (src/logger.go lines 39-41). -/
def Logger.Error (logger : Logger) (msg : String) (v : List GoValue) (now : Nat) :
    StructixLogger.Log :=
  logger.Log "ERROR" msg v now

/-- Embeds `Logger.Timer` (src/logger.go lines 44-50). -/
def Logger.Timer (logger : Logger) (now : Nat) : StructixLogger.Log :=
  { Package := logger.Name
    Level := "TIMER"
    Message := ""
    Time := now }

/-! ### The settings parser as the specification words it (claim C4) -/

/-- The item splitter as the spec describes it: split on the FIRST `"@"`
    only, so the token is everything after the first `"@"` (to be compared
    with `parsePackageName`, which takes only the text between the first
    and second `"@"`). -/
def parsePackageNameSpec (input : String) : String × Option OutputSettings :=
  match goSplit input '@' with
  | [] => ("", none)
  | [n] => (trimSpace n, none)
  | n :: rest => (trimSpace n, some (parseVerbosityLevel (String.intercalate "@" rest)))

/-- The settings parser with the spec-worded split-on-first-`"@"` item
    rule. -/
def parsePackageSettingsSpec (input : String) (d : OutputSettings) : Settings :=
  (goSplit input ',').foldl
    (fun all item =>
      let nv := parsePackageNameSpec item
      mapInsert all nv.1 (nv.2.getD d))
    []

/-! ### Helper lemmas -/

/-- Looking a name up in the singleton wildcard mapping always yields the
    wildcard mask, whether by exact match or by wildcard fallback. -/
theorem loggerSettings_singleton_star (c : Bool) (m : OutputSettings) (name : String) :
    (StandardWriter.mk c [("*", m)]).LoggerSettings name = m := by
  by_cases h : name = "*"
  · simp [StandardWriter.LoggerSettings, mapLookup, List.find?, h]
  · simp [StandardWriter.LoggerSettings, mapLookup, List.find?, Ne.symm h]

/-! ### Claims -/

/-- C1: `LoggerSettings` resolves a package name with the precedence
    exact entry → `"*"` entry → muted all-false mask; in particular the
    singleton wildcard mapping resolves every other name to the wildcard
    mask, and the empty mapping resolves every name to all-false. -/
theorem C1_loggerSettings_precedence (w : StandardWriter) (p : String) :
    (∀ s, mapLookup w.Settings p = some s → w.LoggerSettings p = s) ∧
    (mapLookup w.Settings p = none →
      ∀ s, mapLookup w.Settings "*" = some s → w.LoggerSettings p = s) ∧
    (mapLookup w.Settings p = none → mapLookup w.Settings "*" = none →
      w.LoggerSettings p = ⟨false, false, false⟩) ∧
    (w.Settings = [("*", ⟨true, true, true⟩)] → p ≠ "*" →
      w.LoggerSettings p = ⟨true, true, true⟩) ∧
    (w.Settings = [] → w.LoggerSettings p = ⟨false, false, false⟩) := by
  refine ⟨?_, ?_, ?_, ?_, ?_⟩
  · intro s h
    simp [StandardWriter.LoggerSettings, h]
  · intro h s h2
    simp [StandardWriter.LoggerSettings, h, h2]
  · intro h h2
    simp [StandardWriter.LoggerSettings, h, h2, muted]
  · intro hs hp
    have hcs : w = StandardWriter.mk w.ColorsEnabled [("*", ⟨true, true, true⟩)] := by
      cases w
      simp_all
    rw [hcs]
    exact loggerSettings_singleton_star _ _ _
  · intro hs
    simp [StandardWriter.LoggerSettings, mapLookup, hs, muted]

/-- C1 witness: the three precedence branches at concrete mappings. -/
theorem C1_witness :
    (StandardWriter.mk true [("db", ⟨false, true, false⟩)]).LoggerSettings "db" =
      ⟨false, true, false⟩ ∧
    (StandardWriter.mk true [("*", ⟨true, true, true⟩)]).LoggerSettings "db" =
      ⟨true, true, true⟩ ∧
    (StandardWriter.mk true []).LoggerSettings "db" = ⟨false, false, false⟩ :=
  ⟨(C1_loggerSettings_precedence (StandardWriter.mk true [("db", ⟨false, true, false⟩)])
      "db").1 _ (by decide),
   (C1_loggerSettings_precedence (StandardWriter.mk true [("*", ⟨true, true, true⟩)])
      "db").2.2.2.1 rfl (by decide),
   (C1_loggerSettings_precedence (StandardWriter.mk true []) "db").2.2.2.2 rfl⟩

/-- C2: `parseVerbosityLevel` is total and, after trimming and
    upper-casing, maps MUTE/ERROR/TIMER to their masks and everything else
    to full verbosity; "mute", "MUTE" and " Mute " all yield all-false. -/
theorem C2_parseVerbosityLevel (s : String) :
    (parseVerbosityLevel s =
      (let v := goToUpper (trimSpace s)
       if v = "MUTE" then ⟨false, false, false⟩
       else if v = "ERROR" then ⟨false, true, false⟩
       else if v = "TIMER" then ⟨false, true, true⟩
       else ⟨true, true, true⟩)) ∧
    parseVerbosityLevel "mute" = ⟨false, false, false⟩ ∧
    parseVerbosityLevel "MUTE" = ⟨false, false, false⟩ ∧
    parseVerbosityLevel " Mute " = ⟨false, false, false⟩ := by
  refine ⟨?_, by decide, by decide, by decide⟩
  simp only [parseVerbosityLevel]
  split_ifs <;> simp_all

/-- C3: `IsEnabled` is true exactly when the resolved mask's field for
    the requested level is set (INFO→Info, ERROR→Error, TIMER→Timer); any
    other level string is never enabled. -/
theorem C3_isEnabled (w : StandardWriter) (name level : String) :
    (w.IsEnabled name level = true ↔
      ((level = "INFO" ∧ (w.LoggerSettings name).Info = true) ∨
       (level = "ERROR" ∧ (w.LoggerSettings name).Error = true) ∨
       (level = "TIMER" ∧ (w.LoggerSettings name).Timer = true))) ∧
    (level ≠ "INFO" → level ≠ "ERROR" → level ≠ "TIMER" →
      w.IsEnabled name level = false) := by
  constructor
  · simp only [StandardWriter.IsEnabled]
    split_ifs <;> simp_all
  · intro h1 h2 h3
    simp [StandardWriter.IsEnabled, h1, h2, h3]

/-- C3 witness: with the wildcard-only ERROR mask, "ERROR" is enabled,
    and the unknown level "DEBUG" is not. -/
theorem C3_witness :
    (StandardWriter.mk true [("*", ⟨false, true, false⟩)]).IsEnabled "db" "ERROR" =
      true ∧
    (StandardWriter.mk true [("*", ⟨true, true, true⟩)]).IsEnabled "db" "DEBUG" =
      false :=
  ⟨(C3_isEnabled (StandardWriter.mk true [("*", ⟨false, true, false⟩)]) "db"
      "ERROR").1.mpr (Or.inr (Or.inl ⟨rfl, by decide⟩)),
   (C3_isEnabled (StandardWriter.mk true [("*", ⟨true, true, true⟩)]) "db" "DEBUG").2
     (by decide) (by decide) (by decide)⟩

/-- C4 counterexample: the claim says each item is split on the FIRST
    `"@"` into (name, token).  On "db@timer@x" that reading makes the
    token "timer@x" (unrecognized → full verbosity), but the code splits
    on every `"@"` and takes `parsed[1]` — "timer" — so "db" gets the
    TIMER mask, and the two parsers disagree. -/
theorem C4_counterexample :
    mapLookup (parsePackageSettings "db@timer@x" ⟨true, true, true⟩) "db" =
      some ⟨false, true, true⟩ ∧
    mapLookup (parsePackageSettingsSpec "db@timer@x" ⟨true, true, true⟩) "db" =
      some ⟨true, true, true⟩ ∧
    parsePackageSettings "db@timer@x" ⟨true, true, true⟩ ≠
      parsePackageSettingsSpec "db@timer@x" ⟨true, true, true⟩ := by
  decide

/-- C4 amended: `parsePackageSettings` splits the input on `","`; each
    item is split on every `"@"`, the trimmed first segment is the name,
    and the token — when at least one `"@"` is present — is the text
    between the first and second `"@"` (not everything after the first),
    resolved by `parseVerbosityLevel`, else the default mask; entries
    insert with last-occurrence-wins; the claim's example mapping holds. -/
theorem C4_parsePackageSettings (d : OutputSettings) (item : String) :
    (parsePackageName item =
      (let parsed := goSplit item '@'
       (trimSpace (parsed.headD ""),
        if parsed.length > 1 then some (parseVerbosityLevel (parsed.getD 1 ""))
        else none))) ∧
    (parsePackageSettings "*,database@timer" ⟨true, true, true⟩ =
      [("*", ⟨true, true, true⟩), ("database", ⟨false, true, true⟩)]) ∧
    (mapLookup (parsePackageSettings "a@mute,a@timer" d) "a" =
      some ⟨false, true, true⟩) ∧
    (mapLookup (parsePackageSettings " a ,b" d) "a" = some d) := by
  refine ⟨?_, by decide, rfl, rfl⟩
  simp only [parsePackageName]
  split <;> rfl

/-- C5: a writer built with `LOG` unset/empty parses `"*"` with the
    `LOG_LEVEL` default, so every package resolves to the default mask;
    with both variables empty every logger is enabled at INFO, ERROR and
    TIMER. -/
theorem C5_newStandardOutput (logLevel name level : String) :
    ((NewStandardOutput ⟨"", logLevel⟩).Settings =
      parsePackageSettings "*" (parseVerbosityLevel logLevel)) ∧
    ((NewStandardOutput ⟨"", logLevel⟩).LoggerSettings name =
      parseVerbosityLevel logLevel) ∧
    ((level = "INFO" ∨ level = "ERROR" ∨ level = "TIMER") →
      (NewStandardOutput ⟨"", ""⟩).IsEnabled name level = true) := by
  refine ⟨rfl, ?_, ?_⟩
  · exact loggerSettings_singleton_star true (parseVerbosityLevel logLevel) name
  · intro h
    have hmask : (NewStandardOutput ⟨"", ""⟩).LoggerSettings name =
        ⟨true, true, true⟩ :=
      loggerSettings_singleton_star true ⟨true, true, true⟩ name
    rcases h with h | h | h <;>
      simp [StandardWriter.IsEnabled, h, hmask]

/-- C5 witness: with both environment variables empty, a logger is
    enabled at TIMER. -/
theorem C5_witness :
    (NewStandardOutput ⟨"", ""⟩).IsEnabled "db" "TIMER" = true :=
  (C5_newStandardOutput "" "db" "TIMER").2.2 (Or.inr (Or.inr rfl))

/-- C6: with settings parsed from `LOG="*@error"`, any logger's Info
    record is suppressed by `Write`, while its `Error "bad %d" 5` record
    is written and carries the interpolated message "bad 5". -/
theorem C6_star_error_scenario (name msg : String) (args : List GoValue)
    (now : String) (t : Nat) :
    ((NewStandardOutput ⟨"*@error", ""⟩).Write now
      ((Logger.mk name).Info msg args t) = none) ∧
    (∃ line, (NewStandardOutput ⟨"*@error", ""⟩).Write now
      ((Logger.mk name).Error "bad %d" [.int 5] t) = some line) ∧
    (((Logger.mk name).Error "bad %d" [.int 5] t).Message = "bad 5") := by
  have hw : NewStandardOutput ⟨"*@error", ""⟩ =
      StandardWriter.mk true [("*", ⟨false, true, false⟩)] := rfl
  have hmask : ∀ p, (NewStandardOutput ⟨"*@error", ""⟩).LoggerSettings p =
      ⟨false, true, false⟩ := by
    intro p
    rw [hw]
    exact loggerSettings_singleton_star true ⟨false, true, false⟩ p
  refine ⟨?_, ?_, rfl⟩
  · have hinfo : (NewStandardOutput ⟨"*@error", ""⟩).IsEnabled name "INFO" = false := by
      simp [StandardWriter.IsEnabled, hmask]
    have hpkg : ((Logger.mk name).Info msg args t).Package = name := rfl
    have hlvl : ((Logger.mk name).Info msg args t).Level = "INFO" := rfl
    simp [StandardWriter.Write, hpkg, hlvl, hinfo]
  · have herr : (NewStandardOutput ⟨"*@error", ""⟩).IsEnabled name "ERROR" = true := by
      simp [StandardWriter.IsEnabled, hmask]
    have hpkg : ((Logger.mk name).Error "bad %d" [.int 5] t).Package = name := rfl
    have hlvl : ((Logger.mk name).Error "bad %d" [.int 5] t).Level = "ERROR" := rfl
    refine ⟨(NewStandardOutput ⟨"*@error", ""⟩).Format now
      ((Logger.mk name).Error "bad %d" [.int 5] t) ++ "\n", ?_⟩
    simp [StandardWriter.Write, hpkg, hlvl, herr]

/-- C7: `JSONFormat` is total: when `json.Marshal` succeeds it returns
    the serialized record, when it fails it returns the minimal
    logger-error fallback object; a record without attrs always
    serializes. -/
theorem C7_jsonFormat_total (w : StandardWriter) (log : Log) :
    (∀ s, jsonMarshal log = Except.ok s → w.JSONFormat log = s) ∧
    (∀ e, jsonMarshal log = Except.error e →
      w.JSONFormat log = "\x7b \"logger-error\": \"" ++ e ++ "\" \x7d") ∧
    (log.Attrs = none → ∃ s, jsonMarshal log = Except.ok s) := by
  refine ⟨?_, ?_, ?_⟩
  · intro s h
    simp [StandardWriter.JSONFormat, h]
  · intro e h
    simp [StandardWriter.JSONFormat, h]
  · intro h
    simp only [jsonMarshal, h]
    exact ⟨_, rfl⟩

/-- C7 witness: a record without attrs serializes to its JSON object;
    a record carrying an unserializable attr value degrades to the
    fallback object. -/
theorem C7_witness :
    ((StandardWriter.mk false []).JSONFormat
      { Package := "p", Level := "INFO", Message := "m", Time := 3 } =
      "\x7b\"Package\":\"p\",\"Level\":\"INFO\",\"Message\":\"m\",\"Time\":3,\"Attrs\":null,\"ElapsedNano\":0\x7d") ∧
    ((StandardWriter.mk false []).JSONFormat
      { Package := "p", Level := "INFO", Message := "m", Time := 3,
        Attrs := some [("k", .unsupported "func()")] } =
      "\x7b \"logger-error\": \"" ++ "json: unsupported type: func()" ++ "\" \x7d") ∧
    (∃ s, jsonMarshal
      { Package := "p", Level := "INFO", Message := "m", Time := 3 } =
      Except.ok s) :=
  ⟨(C7_jsonFormat_total (StandardWriter.mk false [])
      { Package := "p", Level := "INFO", Message := "m", Time := 3 }).1 _ rfl,
   (C7_jsonFormat_total (StandardWriter.mk false [])
      { Package := "p", Level := "INFO", Message := "m", Time := 3,
        Attrs := some [("k", .unsupported "func()")] }).2.1 _ rfl,
   (C7_jsonFormat_total (StandardWriter.mk false [])
      { Package := "p", Level := "INFO", Message := "m", Time := 3 }).2.2 rfl⟩

/-- C8: the empty input string parses to exactly one entry, the empty
    name mapped to the supplied default (the empty-split quirk). -/
theorem C8_empty_input (d : OutputSettings) :
    parsePackageSettings "" d = [("", d)] := rfl

/-- C9: `NewStandardOutput` always sets `ColorsEnabled`, and `Format` on
    a colors-enabled writer always takes the pretty branch, so such a
    writer never produces the JSON rendering. -/
theorem C9_colors_enabled (env : Env) (w : StandardWriter) (now : String) (log : Log) :
    ((NewStandardOutput env).ColorsEnabled = true) ∧
    (w.ColorsEnabled = true → w.Format now log = w.PrettyFormat now log) := by
  refine ⟨rfl, ?_⟩
  intro h
  simp [StandardWriter.Format, h]

/-- C9 witness: a concrete colors-enabled writer formats via the pretty
    branch. -/
theorem C9_witness :
    (StandardWriter.mk true []).Format "12:00:00.000"
      { Package := "p", Level := "INFO", Message := "m", Time := 0 } =
    (StandardWriter.mk true []).PrettyFormat "12:00:00.000"
      { Package := "p", Level := "INFO", Message := "m", Time := 0 } :=
  (C9_colors_enabled ⟨"", ""⟩ (StandardWriter.mk true []) "12:00:00.000"
    { Package := "p", Level := "INFO", Message := "m", Time := 0 }).2 rfl

/-- C10: the pretty rendering reads the wall clock passed at format time
    and never the record's `Time` field: two records differing only in
    `Time` format identically under the same clock reading. -/
theorem C10_prettyFormat_ignores_time (w : StandardWriter) (now : String) (log : Log)
    (t1 t2 : Nat) :
    w.PrettyFormat now { log with Time := t1 } =
    w.PrettyFormat now { log with Time := t2 } := rfl

end StructixLogger
